import Mathlib

/-!
Verification development for the Borealis Survey core
(apps/borealis-survey/borealis_survey): the Context/Input/Solution
pipeline, the quality verifier and the minimum-curvature trajectory
engine.

Modelling conventions:
* Python JSON-ish runtime values are embedded as `PyVal` (floats as ℚ,
  which is exact for every literal appearing in the sources).
* Survey numerics (measured depth, angles, positions) are embedded as ℝ,
  with `math.cos`/`sin`/`tan`/`acos` as the Mathlib real functions.
* Wall-clock times and parsed dates are integers (days); the standard
  library date parser `datetime.fromisoformat` is a parameter
  `parse : String → Option Int` (`none` models the ValueError raised on
  an unparsable string).
* Fallible Python code returns `Except PyErr`; a raised exception is an
  `Except.error`.
* SQLAlchemy sessions are embedded as explicit `DB` state; `s.commit()`
  is modelled by returning the updated state, so state committed before
  a later exception is kept, exactly as with the real database.
-/

/-- Python exception kinds that the embedded code can raise. -/
inductive PyErr where
  | typeError
  | valueError
  | keyError
  | attributeError
deriving DecidableEq, Repr

/-- Embedded Python/JSON runtime values.  Dict keys are strings, as in
every dict appearing in the sources.  Floats are rationals. -/
inductive PyVal where
  | none
  | bool (b : Bool)
  | int (n : Int)
  | float (q : ℚ)
  | str (s : String)
  | list (xs : List PyVal)
  | dict (xs : List (String × PyVal))
deriving BEq, Repr

/-- Numeric view of a Python value (`bool` is an `int` subclass). -/
def pyNum : PyVal → Option ℚ
  | .bool b => some (if b then 1 else 0)
  | .int n => some (n : ℚ)
  | .float q => some q
  | _ => Option.none

/-- Python `==` on embedded values: numeric values compare by value
(`1 == 1.0` is `True`); other values compare structurally.  (Numeric
unification inside nested containers is approximated structurally; no
code path exercised here compares nested containers.) -/
def pyEq (a b : PyVal) : Bool :=
  match pyNum a, pyNum b with
  | some x, some y => x == y
  | _, _ => a == b

/-- Python truthiness. -/
def pyTruthy : PyVal → Bool
  | .none => false
  | .bool b => b
  | .int n => n != 0
  | .float q => q != 0
  | .str s => s != ""
  | .list xs => !xs.isEmpty
  | .dict xs => !xs.isEmpty

/-- Substring test used by Python `needle in string`. -/
def strContains (s needle : String) : Bool :=
  if needle = "" then true else (s.splitOn needle).length ≥ 2

/-- First binding of key `k` in an embedded dict. -/
def dictFind (xs : List (String × PyVal)) (k : String) : Option PyVal :=
  (xs.find? (fun kv => k == kv.1)).map (fun kv => kv.2)

/-- Python membership `needle in container`.  Non-container right
operands raise TypeError, as does an unhashable key probed against a
dict. -/
def pyContains (needle container : PyVal) : Except PyErr Bool :=
  match container with
  | .dict xs =>
    match needle with
    | .str s => .ok (dictFind xs s).isSome
    | .list _ => .error .typeError
    | .dict _ => .error .typeError
    | _ => .ok false
  | .list xs => .ok (xs.any (pyEq needle))
  | .str s =>
    match needle with
    | .str n => .ok (strContains s n)
    | _ => .error .typeError
  | _ => .error .typeError

/-- Python subscript `container[key]`. -/
def pySubscript (container key : PyVal) : Except PyErr PyVal :=
  match container with
  | .dict xs =>
    match key with
    | .str s =>
      match dictFind xs s with
      | some v => .ok v
      | Option.none => .error .keyError
    | .list _ => .error .typeError
    | .dict _ => .error .typeError
    | _ => .error .keyError
  | .str _ => .error .typeError
  | .list _ => .error .typeError
  | _ => .error .typeError

/-- Python `container.get(key)`: a dict method, AttributeError on any
other receiver; returns `None` for a missing key. -/
def pyGet (container : PyVal) (k : String) : Except PyErr PyVal :=
  match container with
  | .dict xs =>
    match dictFind xs k with
    | some v => .ok v
    | Option.none => .ok .none
  | _ => .error .attributeError

/-- Whether `len` is defined on the value. -/
def sized : PyVal → Bool
  | .str _ => true
  | .list _ => true
  | .dict _ => true
  | _ => false

/-- Python `len`. -/
def pyLen : PyVal → Except PyErr Int
  | .str s => .ok s.length
  | .list xs => .ok xs.length
  | .dict xs => .ok xs.length
  | _ => .error .typeError

/-- Dict assignment `d[k] = v`: replace the binding if the key exists,
else append it. -/
def dictSet (xs : List (String × PyVal)) (k : String) (v : PyVal) :
    List (String × PyVal) :=
  if (xs.find? (fun kv => k == kv.1)).isSome then
    xs.map (fun kv => if k == kv.1 then (kv.1, v) else kv)
  else xs ++ [(k, v)]

/-- The setting `settings.MAG_MODEL_MAX_AGE_DAYS` (settings.py). -/
def MAG_MODEL_MAX_AGE_DAYS : Int := 30

/-- Flag-computing prefix of verifier.py `verify` (lines 20-37): the
`if not context` branch and, otherwise, the `mag_model_date`
membership test, the `try` block around `fromisoformat` and the
staleness comparison against the global `MAG_MODEL_MAX_AGE_DAYS`.
A TypeError or ValueError inside the `try` is caught and yields
`MAG_MODEL_INVALID`; a KeyError would propagate (it cannot occur after
a successful membership test on a dict). -/
def ctxFlags (parse : String → Option Int) (now : Int) (context : PyVal) :
    Except PyErr (List String) :=
  if pyTruthy context then
    match pyContains (.str "mag_model_date") context with
    | .error e => .error e
    | .ok mem =>
      if mem then
        match pySubscript context (.str "mag_model_date") with
        | .error .keyError => .error .keyError
        | .error _ => .ok ["MAG_MODEL_INVALID"]
        | .ok v =>
          match v with
          | .str s =>
            match parse s with
            | some d =>
              if now - d > MAG_MODEL_MAX_AGE_DAYS then .ok ["MAG_MODEL_STALE"]
              else .ok []
            | Option.none => .ok ["MAG_MODEL_INVALID"]
          | _ => .ok ["MAG_MODEL_INVALID"]
      else .ok ["MAG_MODEL_MISSING"]
  else .ok ["UNVERIFIED", "CONTEXT_FALLBACK"]

/-- verifier.py line 40:
`has_sensors = "sensors" in input_data and input_data["sensors"]` —
the membership test, then (only if it succeeded and was true) the
subscript; a false test leaves the Python value `False`. -/
def hasSensorsStep (input_data : PyVal) : Except PyErr PyVal := do
  let memS ← pyContains (.str "sensors") input_data
  if memS then pySubscript input_data (.str "sensors")
  else pure (PyVal.bool false)

/-- verifier.py lines 51-59: copy `input_data[k]` into the solution,
defaulting to the dummy `0.0` when the key is absent. -/
def copyAngle (input_data : PyVal) (k : String) : Except PyErr PyVal := do
  let mem ← pyContains (.str k) input_data
  if mem then pySubscript input_data (.str k)
  else pure (PyVal.float 0)

/-- verifier.py lines 61-67: the sensor-processing slots, including
the `len(input_data["sensors"])` call in the truthy branch. -/
def sensorsSlots (input_data has_sensors : PyVal)
    (s2 : List (String × PyVal)) : Except PyErr (List (String × PyVal)) :=
  if pyTruthy has_sensors then do
    let sv ← pySubscript input_data (.str "sensors")
    let c ← pyLen sv
    pure (dictSet (dictSet s2 "sensors_processed" (PyVal.bool true))
      "sensor_count" (PyVal.int c))
  else
    pure (dictSet (dictSet s2 "sensors_processed" (PyVal.bool false))
      "sensor_count" (PyVal.int 0))

/-- verifier.py lines 69-74: the context slots, including the
`context.get("well_id")` call in the truthy branch. -/
def contextSlots (context : PyVal) (s3 : List (String × PyVal)) :
    Except PyErr (List (String × PyVal)) :=
  if pyTruthy context then do
    let w ← pyGet context "well_id"
    pure (dictSet (dictSet s3 "context_applied" (PyVal.bool true))
      "well_id" w)
  else
    pure (dictSet s3 "context_applied" (PyVal.bool false))

/-- Solution-building suffix of verifier.py `verify` (lines 39-75):
`has_sensors`, `pipeline_type`, and the solution dict assembled in the
source order.  `timestamp` is the current time (the source stores
`utcnow().isoformat()`). -/
def buildSolution (now : Int) (input_data context : PyVal)
    (flags : List String) : Except PyErr PyVal := do
  let has_sensors ← hasSensorsStep input_data
  let pt := if pyTruthy has_sensors then "FULL" else "PARTIAL"
  let s0 : List (String × PyVal) :=
    [("pipeline_type", PyVal.str pt),
     ("flags", PyVal.list (flags.map PyVal.str)),
     ("timestamp", PyVal.int now)]
  let incv ← copyAngle input_data "inc_deg"
  let s1 := dictSet s0 "inc_deg" incv
  let aziv ← copyAngle input_data "azi_deg"
  let s2 := dictSet s1 "azi_deg" aziv
  let s3 ← sensorsSlots input_data has_sensors s2
  let s4 ← contextSlots context s3
  pure (PyVal.dict s4)

/-- verifier.py `verify(input_data, context)`: returns the tuple
`(flags, solution)`. -/
def verify (parse : String → Option Int) (now : Int)
    (input_data context : PyVal) :
    Except PyErr (List String × PyVal) := do
  let fl ← ctxFlags parse now context
  let sol ← buildSolution now input_data context fl
  pure (fl, sol)

/-- main.py line 135, quality as computed from a plain flag list:
`2 if not flags else 1`. -/
def qualityFromFlags (flags : List String) : Nat :=
  if flags.isEmpty then 2 else 1

/-- Modelled from the spec: the flags-returning verifier that
main.py:122 invokes as `verify(ctx_dict, settings.MAG_MODEL_MAX_AGE_DAYS)`
is not present under src — the verifier.py there has the incompatible
`(input_data, context)` signature and belongs to the superseded
in-memory variant (spec §9).  This definition follows §4.2 word for
word: rule 1 (none context), rule 2 (mag_field.model_date absent or
unparsable ⇒ MAG_MODEL_MISSING, parseable and older than max_age_days
⇒ MAG_MODEL_STALE), rule 3 (grid present but without a convergence
value ⇒ GRID_INCOMPLETE), rule 4 (no "KB" datum ⇒ DATUM_INCOMPLETE),
rule 5 (quality 2 when no flags, else 1).  The context is the dict of
main.py lines 109-121. -/
def verifySpec (parse : String → Option Int) (now : Int)
    (context : Option (List (String × PyVal))) (max_age_days : Int) :
    List String × Nat :=
  match context with
  | Option.none => (["UNVERIFIED", "CONTEXT_FALLBACK"], 1)
  | some ctx =>
    let magFlags :=
      match dictFind ctx "mag_field" with
      | some (.dict mf) =>
        match dictFind mf "model_date" with
        | some (.str s) =>
          match parse s with
          | some d =>
            if now - d > max_age_days then ["MAG_MODEL_STALE"] else []
          | Option.none => ["MAG_MODEL_MISSING"]
        | _ => ["MAG_MODEL_MISSING"]
      | _ => ["MAG_MODEL_MISSING"]
    let gridFlags :=
      match dictFind ctx "grid" with
      | some (.dict g) =>
        if (dictFind g "convergence").isSome then [] else ["GRID_INCOMPLETE"]
      | _ => []
    let datumFlags :=
      match dictFind ctx "datums" with
      | some (.dict d) =>
        if (dictFind d "KB").isSome then [] else ["DATUM_INCOMPLETE"]
      | _ => ["DATUM_INCOMPLETE"]
    let flags := magFlags ++ gridFlags ++ datumFlags
    (flags, if flags.isEmpty then 2 else 1)

/-! ## Trajectory maths (maths.py) -/

/-- Python `math.radians`. -/
noncomputable def radians (x : ℝ) : ℝ := x * Real.pi / 180

/-- Python `math.degrees`. -/
noncomputable def degrees (x : ℝ) : ℝ := x * 180 / Real.pi

/-- maths.py line 18: the unclamped dogleg cosine. -/
noncomputable def cosDogleg (inc1 inc2 azi1 azi2 : ℝ) : ℝ :=
  Real.cos (inc2 - inc1) -
    (Real.sin inc1 * Real.sin inc2 * (1 - Real.cos (azi2 - azi1)))

/-- maths.py line 19: clamp to the arccos domain. -/
noncomputable def clampCos (x : ℝ) : ℝ := max (-1) (min 1 x)

/-- maths.py `min_curvature`: returns `(dls_deg_per_30m, rf)`. -/
noncomputable def min_curvature
    (prev_md prev_inc_deg prev_azi_deg md inc_deg azi_deg : ℝ) : ℝ × ℝ :=
  let dmd := md - prev_md
  if dmd ≤ 0 then (0, 0)
  else
    let inc1 := radians prev_inc_deg
    let inc2 := radians inc_deg
    let azi1 := radians prev_azi_deg
    let azi2 := radians azi_deg
    let cos_dogleg := clampCos (cosDogleg inc1 inc2 azi1 azi2)
    let dogleg := Real.arccos cos_dogleg
    let rf :=
      if dogleg < 1 / 1000000 then 1 else (2 / dogleg) * Real.tan (dogleg / 2)
    let dls := degrees dogleg * (30 / dmd)
    (dls, rf)

/-- Python `math.acos` including its domain check: raises (returns `none`)
outside `[-1, 1]`. -/
noncomputable def acosChecked (x : ℝ) : Option ℝ :=
  if -1 ≤ x ∧ x ≤ 1 then some (Real.arccos x) else Option.none

/-- Function `min_curvature` with the arccos domain check made explicit: the
result is `none` exactly when `math.acos` would raise a ValueError. -/
noncomputable def min_curvature_checked
    (prev_md prev_inc_deg prev_azi_deg md inc_deg azi_deg : ℝ) :
    Option (ℝ × ℝ) :=
  let dmd := md - prev_md
  if dmd ≤ 0 then some (0, 0)
  else
    let inc1 := radians prev_inc_deg
    let inc2 := radians inc_deg
    let azi1 := radians prev_azi_deg
    let azi2 := radians azi_deg
    let cos_dogleg := clampCos (cosDogleg inc1 inc2 azi1 azi2)
    match acosChecked cos_dogleg with
    | Option.none => Option.none
    | some dogleg =>
      let rf :=
        if dogleg < 1 / 1000000 then 1
        else (2 / dogleg) * Real.tan (dogleg / 2)
      let dls := degrees dogleg * (30 / dmd)
      some (dls, rf)

/-- maths.py `mc_step`: one minimum-curvature position step. -/
noncomputable def mc_step
    (prev_md prev_inc_deg prev_azi_deg prev_n prev_e prev_tvd
      md inc_deg azi_deg : ℝ) : ℝ × ℝ × ℝ :=
  let dmd := md - prev_md
  let rf := (min_curvature prev_md prev_inc_deg prev_azi_deg md inc_deg azi_deg).2
  let inc1 := radians prev_inc_deg
  let inc2 := radians inc_deg
  let azi1 := radians prev_azi_deg
  let azi2 := radians azi_deg
  let n := prev_n +
    0.5 * dmd * (Real.sin inc1 * Real.cos azi1 + Real.sin inc2 * Real.cos azi2) * rf
  let e := prev_e +
    0.5 * dmd * (Real.sin inc1 * Real.sin azi1 + Real.sin inc2 * Real.sin azi2) * rf
  let tvd := prev_tvd + 0.5 * dmd * (Real.cos inc1 + Real.cos inc2) * rf
  (n, e, tvd)

/-! ## Ledger data model (models.py) and pipeline state (db.py) -/

/-- A `brls_survey_context` row.  `id` stands in for the uuid; JSON
columns are `PyVal`. -/
structure CtxRow where
  id : Nat
  well_id : String
  mwd_tool_family : String
  grid : PyVal
  datums : PyVal
  formation : PyVal
  mag_field : PyVal
  tool_cal : PyVal
  quality_tags : PyVal
  provenance : PyVal
  active_from : Int

/-- A `brls_survey_input` row (fields the pipeline uses). -/
structure InputRow where
  id : Nat
  well_id : String
  md_m : ℝ
  sensors : PyVal
  inc_deg : Option ℝ
  azi_deg : Option ℝ
  run_id : Option String
  context_id : Option Nat
  source : String

/-- A `brls_survey_solution` row. -/
structure SolutionRow where
  id : Nat
  input_id : Nat
  context_id : Option Nat
  inc_deg : ℝ
  azi_deg : ℝ
  tvd_m : ℝ
  northing_m : ℝ
  easting_m : ℝ
  dogleg_deg30m : ℝ
  frame : String
  quality : Nat
  flags : PyVal

/-- The persisted state: the three tables plus an id counter standing
in for `uuid4`. -/
structure DB where
  contexts : List CtxRow
  inputs : List InputRow
  solutions : List SolutionRow
  nextId : Nat

/-- main.py line 95: active context = the well's context row with the
greatest `active_from` (ORDER BY active_from DESC, first row). -/
def activeContext (db : DB) (well : String) : Option CtxRow :=
  (db.contexts.filter (fun c => c.well_id == well)).foldl
    (fun acc c =>
      match acc with
      | Option.none => some c
      | some a => if a.active_from < c.active_from then some c else some a)
    Option.none

/-- The join of main.py lines 104-105: each solution paired with its
input, restricted to the well. -/
def joined (db : DB) (well : String) : List (InputRow × SolutionRow) :=
  db.solutions.filterMap (fun sol =>
    (db.inputs.find? (fun i => i.id == sol.input_id)).bind (fun i =>
      if i.well_id == well then some (i, sol) else Option.none))

/-- The query tail `ORDER BY md_m DESC` + `.first()`: the pair whose input has maximal
`md_m` (first-scanned wins ties). -/
noncomputable def maxByMd (l : List (InputRow × SolutionRow)) :
    Option (InputRow × SolutionRow) :=
  l.foldl
    (fun acc p =>
      match acc with
      | Option.none => some p
      | some q => if q.1.md_m < p.1.md_m then some p else some q)
    Option.none

/-- main.py lines 104-106: the "previous" solution resolved by the
pipeline.  Note: the query has no `md_m <` filter and does not use the
new station's measured depth at all. -/
noncomputable def prevSolution (db : DB) (well : String) :
    Option (InputRow × SolutionRow) :=
  maxByMd (joined db well)

/-- The lookup as worded by the spec (§4.4 step 4): among the well's
solutions whose station depth is strictly below the new `md`, the one
with the greatest depth. -/
noncomputable def prevSolutionSpec (db : DB) (well : String) (md : ℝ) :
    Option (InputRow × SolutionRow) :=
  maxByMd ((joined db well).filter (fun p => p.1.md_m < md))

/-! ## Ingestion pipeline (main.py `post_input`) -/

/-- The request body `InputJSON` (main.py lines 83-90). -/
structure InputJSON where
  well_id : String
  md_m : ℝ
  inc_deg : Option ℝ := Option.none
  azi_deg : Option ℝ := Option.none
  sensors : PyVal := PyVal.none
  run_id : Option String := Option.none
  source : String := "Manual"

/-- main.py line 123, `body.inc_deg or 0.0` on a nullable float:
`None` and `0.0` both give `0.0`, any other float gives itself. -/
noncomputable def pyOrZero : Option ℝ → ℝ
  | Option.none => 0
  | some v => if v = 0 then 0 else v

/-- main.py lines 124-131: the trajectory step of one ingestion,
returning `(northing, easting, tvd, dls)`.  With no previous solution
the position is `(0, 0, 0)` and `dls = 0`; otherwise `mc_step` and
`min_curvature` run from the previous input's depth and the previous
solution's angles and position (the source's `or 0.0` guards on the
nullable position columns are the identity on the embedded reals). -/
noncomputable def computeStep (prev : Option (InputRow × SolutionRow))
    (md inc azi : ℝ) : ℝ × ℝ × ℝ × ℝ :=
  match prev with
  | Option.none => (0, 0, 0, 0)
  | some (pinp, psol) =>
    let step := mc_step pinp.md_m psol.inc_deg psol.azi_deg
      psol.northing_m psol.easting_m psol.tvd_m md inc azi
    let dls := (min_curvature pinp.md_m psol.inc_deg psol.azi_deg
      md inc azi).1
    (step.1, step.2.1, step.2.2, dls)

/-- main.py lines 109-121: the `ctx_dict` built from the active
context row, keys in source order. -/
def ctxEntries (r : CtxRow) : List (String × PyVal) :=
  [("id", PyVal.int r.id),
   ("well_id", PyVal.str r.well_id),
   ("mwd_tool_family", PyVal.str r.mwd_tool_family),
   ("grid", r.grid),
   ("datums", r.datums),
   ("formation", r.formation),
   ("mag_field", r.mag_field),
   ("tool_cal", r.tool_cal),
   ("quality_tags", r.quality_tags),
   ("provenance", r.provenance),
   ("active_from", PyVal.int r.active_from)]

/-- main.py lines 96-102: build the `SurveyInput` row and commit it
(first `s.commit()`). -/
def commitInput (db : DB) (body : InputJSON) (ctxId : Option Nat) :
    DB × InputRow :=
  let inp : InputRow :=
    { id := db.nextId, well_id := body.well_id, md_m := body.md_m,
      sensors := body.sensors, inc_deg := body.inc_deg,
      azi_deg := body.azi_deg, run_id := body.run_id,
      context_id := ctxId, source := body.source }
  ({ db with inputs := db.inputs ++ [inp], nextId := db.nextId + 1 }, inp)

/-- The ingestion response `{input_id, solution_id, flags}`. -/
structure IngestResp where
  input_id : Nat
  solution_id : Nat
  flags : PyVal

/-- main.py lines 123-138, after the `verify` call has produced the
value bound to `flags` (`flagsVal`): angle substitution, trajectory
step, `SurveySolution` row, second commit, response. -/
noncomputable def ingestAfterVerify (db1 : DB) (body : InputJSON)
    (ctxId : Option Nat) (prev : Option (InputRow × SolutionRow))
    (inpId : Nat) (flagsVal : PyVal) : DB × IngestResp :=
  let inc := pyOrZero body.inc_deg
  let azi := pyOrZero body.azi_deg
  let step := computeStep prev body.md_m inc azi
  let sol : SolutionRow :=
    { id := db1.nextId, input_id := inpId, context_id := ctxId,
      inc_deg := inc, azi_deg := azi, tvd_m := step.2.2.1,
      northing_m := step.1, easting_m := step.2.1,
      dogleg_deg30m := step.2.2.2, frame := "LOCAL",
      quality := if pyTruthy flagsVal then 1 else 2, flags := flagsVal }
  let db2 : DB :=
    { db1 with solutions := db1.solutions ++ [sol], nextId := db1.nextId + 1 }
  let resp : IngestResp :=
    { input_id := inpId, solution_id := sol.id, flags := flagsVal }
  (db2, resp)

/-- main.py `post_input`, faithful to the sources: the verifier called
at line 122 is verifier.py's `verify`, receiving `ctx_dict` as its
`input_data` parameter and the integer `settings.MAG_MODEL_MAX_AGE_DAYS`
as its `context` parameter.  The input row is committed before the
call; an exception aborts the request but keeps that commit.  In the
non-raising case the tuple returned by `verify` is the value bound to
`flags` (embedded as a two-element list). -/
noncomputable def post_input (parse : String → Option Int) (now : Int)
    (db : DB) (body : InputJSON) : DB × Except PyErr IngestResp :=
  let ctx := activeContext db body.well_id
  let ctxId := ctx.map (fun r => r.id)
  let r1 := commitInput db body ctxId
  let db1 := r1.1
  let prev := prevSolution db1 body.well_id
  let ctx_dict :=
    match ctx with
    | Option.none => PyVal.none
    | some r => PyVal.dict (ctxEntries r)
  match verify parse now ctx_dict (PyVal.int MAG_MODEL_MAX_AGE_DAYS) with
  | .error e => (db1, .error e)
  | .ok t =>
    let flagsVal := PyVal.list [PyVal.list (t.1.map PyVal.str), t.2]
    let r2 := ingestAfterVerify db1 body ctxId prev r1.2.id flagsVal
    (r2.1, .ok r2.2)

/-- main.py `post_input` with the call at line 122 replaced by the
spec-modelled flags-returning verifier (`verifySpec`, see its doc
comment): `flags` is then the plain flag list the rest of main.py was
written against.  Everything else is identical to `post_input`. -/
noncomputable def post_input_run (parse : String → Option Int) (now : Int)
    (db : DB) (body : InputJSON) : DB × IngestResp :=
  let ctx := activeContext db body.well_id
  let ctxId := ctx.map (fun r => r.id)
  let r1 := commitInput db body ctxId
  let db1 := r1.1
  let prev := prevSolution db1 body.well_id
  let flags :=
    (verifySpec parse now (ctx.map ctxEntries) MAG_MODEL_MAX_AGE_DAYS).1
  let flagsVal := PyVal.list (flags.map PyVal.str)
  ingestAfterVerify db1 body ctxId prev r1.2.id flagsVal

/-! ## Concrete fixtures -/

/-- A date parser accepting nothing (no context under test carries a
parseable date unless stated otherwise). -/
def parse0 : String → Option Int := fun _ => Option.none

/-- The empty ledger. -/
def emptyDB : DB := { contexts := [], inputs := [], solutions := [], nextId := 0 }

/-- A single-input request carrying neither sensors nor angles. -/
def body0 : InputJSON := { well_id := "W1", md_m := 100 }

/-! ## Helper lemmas -/

/-- verifier.py `verify`, called the way main.py line 122 calls it
(`context` = the integer `MAG_MODEL_MAX_AGE_DAYS`), raises TypeError
for every `input_data`: the integer is truthy, so the membership test
`"mag_model_date" not in context` runs on an int. -/
theorem verify_with_int_context (parse : String → Option Int) (now : Int)
    (input_data : PyVal) :
    verify parse now input_data (PyVal.int MAG_MODEL_MAX_AGE_DAYS) =
      Except.error PyErr.typeError := rfl

/-! ## Claims -/

/-- C1: the claim says the Verifier, as invoked by the ingestion
pipeline, returns a flag list without raising for every context value.
In the code the opposite holds: for EVERY value of `ctx_dict` (the
`input_data` argument), the call `verify(ctx_dict,
settings.MAG_MODEL_MAX_AGE_DAYS)` raises TypeError, because the
integer max-age lands in the `context` parameter and the membership
test runs on it.  This theorem evaluates the code at the failing
inputs. -/
theorem c1_verifier_as_invoked_always_raises
    (parse : String → Option Int) (now : Int) (ctx_dict : PyVal) :
    verify parse now ctx_dict (PyVal.int MAG_MODEL_MAX_AGE_DAYS) =
      Except.error PyErr.typeError :=
  verify_with_int_context parse now ctx_dict

/-- C3: the claim says a failing single-input call leaves no partial
state — never an Input row committed without its Solution.  In the code
the Input row is committed in its own transaction before the verify
call, and the verify call (as wired) raises on every request: every
single-input call therefore aborts with TypeError while keeping the
committed Input row and creating no Solution — exactly the partial
state the claim rules out. -/
theorem c3_input_committed_without_solution
    (parse : String → Option Int) (now : Int) (db : DB) (body : InputJSON) :
    (post_input parse now db body).2 = Except.error PyErr.typeError ∧
    (post_input parse now db body).1.solutions = db.solutions ∧
    (post_input parse now db body).1.inputs.length = db.inputs.length + 1 := by
  cases hctx : activeContext db body.well_id with
  | none =>
    refine ⟨?_, ?_, ?_⟩ <;>
      simp [post_input, hctx, verify_with_int_context, commitInput]
  | some r =>
    refine ⟨?_, ?_, ?_⟩ <;>
      simp [post_input, hctx, verify_with_int_context, commitInput]

/-- C2: the claim says ingestion fails with a validation error,
creating no rows, exactly when the station has neither a non-empty
sensor set nor both angles.  The code performs no such validation:
submitting a station with no sensors and no angles creates both an
Input row and a Solution row, with the missing angles recorded as 0.0
(shown here on the pipeline with the spec-modelled verifier in place of
the miswired call; the faithful pipeline instead raises TypeError for
every request — see the C3 theorem — which is still not a validation
error and still commits the Input row). -/
theorem c2_no_validation_rows_created :
    (post_input_run parse0 0 emptyDB body0).1.inputs.length = 1 ∧
    (post_input_run parse0 0 emptyDB body0).1.solutions.map
      (fun s => (s.inc_deg, s.azi_deg)) = [((0 : ℝ), (0 : ℝ))] ∧
    (post_input_run parse0 0 emptyDB body0).2.input_id = 0 ∧
    (post_input_run parse0 0 emptyDB body0).2.solution_id = 1 :=
  ⟨rfl, rfl, rfl, rfl⟩

/-- C10: a single-input request with missing angles is not rejected;
the pipeline substitutes `body.inc_deg or 0.0` (so a missing or
zero-valued angle becomes 0.0), computes the trajectory step from the
substituted values and the resolved previous solution, and persists
them on the Solution row. -/
theorem c10_missing_angles_default_to_zero
    (parse : String → Option Int) (now : Int) (db : DB) (body : InputJSON) :
    (∃ sol : SolutionRow,
      (post_input_run parse now db body).1.solutions = db.solutions ++ [sol] ∧
      sol.inc_deg = pyOrZero body.inc_deg ∧
      sol.azi_deg = pyOrZero body.azi_deg ∧
      (sol.northing_m, sol.easting_m, sol.tvd_m, sol.dogleg_deg30m) =
        computeStep
          (prevSolution
            (commitInput db body
              ((activeContext db body.well_id).map (fun r => r.id))).1
            body.well_id)
          body.md_m (pyOrZero body.inc_deg) (pyOrZero body.azi_deg) ∧
      (post_input_run parse now db body).1.inputs.length =
        db.inputs.length + 1 ∧
      (post_input_run parse now db body).2.solution_id = sol.id) ∧
    pyOrZero Option.none = 0 ∧ pyOrZero (some 0) = 0 := by
  refine ⟨⟨_, rfl, rfl, rfl, rfl, ?_, rfl⟩, rfl, by simp [pyOrZero]⟩
  simp [post_input_run, ingestAfterVerify, commitInput]

/-- The clamp of maths.py line 19 always lands in the arccos domain. -/
theorem clampCos_mem (x : ℝ) : -1 ≤ clampCos x ∧ clampCos x ≤ 1 :=
  ⟨le_max_left _ _, max_le (by norm_num) (min_le_left _ _)⟩

/-- C9: the dogleg cosine is clamped to `[-1, 1]` before `acos`, so
`min_curvature` never raises a domain error: running it with the
`acos` domain check made explicit (`min_curvature_checked`) succeeds on
every real-valued station pair and returns exactly the unchecked
result. -/
theorem c9_clamped_acos_never_domain_error
    (prev_md prev_inc_deg prev_azi_deg md inc_deg azi_deg : ℝ) :
    (-1 ≤ clampCos (cosDogleg (radians prev_inc_deg) (radians inc_deg)
        (radians prev_azi_deg) (radians azi_deg)) ∧
      clampCos (cosDogleg (radians prev_inc_deg) (radians inc_deg)
        (radians prev_azi_deg) (radians azi_deg)) ≤ 1) ∧
    min_curvature_checked prev_md prev_inc_deg prev_azi_deg md inc_deg azi_deg =
      some (min_curvature prev_md prev_inc_deg prev_azi_deg md inc_deg azi_deg) := by
  refine ⟨clampCos_mem _, ?_⟩
  by_cases h : md - prev_md ≤ 0
  · simp [min_curvature_checked, min_curvature, h]
  · have hb := clampCos_mem (cosDogleg (radians prev_inc_deg) (radians inc_deg)
      (radians prev_azi_deg) (radians azi_deg))
    simp [min_curvature_checked, min_curvature, acosChecked, h, hb]

/-- C8: a step with no previous station yields position `(0, 0, 0)`
and dogleg 0 (main.py lines 129-131), and a step with non-increasing
depth yields dogleg 0, ratio factor 0, and a position exactly equal to
the previous solution's stored position (maths.py lines 12-13 set
`rf = 0`, which zeroes every position increment). -/
theorem c8_degenerate_zero_step :
    (∀ md inc azi : ℝ, computeStep Option.none md inc azi = (0, 0, 0, 0)) ∧
    ∀ (p : InputRow × SolutionRow) (md inc azi : ℝ), md - p.1.md_m ≤ 0 →
      computeStep (some p) md inc azi =
        (p.2.northing_m, p.2.easting_m, p.2.tvd_m, 0) ∧
      (min_curvature p.1.md_m p.2.inc_deg p.2.azi_deg md inc azi).2 = 0 := by
  constructor
  · intro md inc azi; rfl
  · intro p md inc azi h
    obtain ⟨pinp, psol⟩ := p
    have hmc : min_curvature pinp.md_m psol.inc_deg psol.azi_deg md inc azi =
        (0, 0) := by
      simp [min_curvature, h]
    constructor
    · simp [computeStep, mc_step, hmc]
    · simp [hmc]

/-- Fixture for the C8 witness: a previous station at depth 100 with
stored position (1, 2, 3). -/
noncomputable def inpW : InputRow :=
  { id := 0, well_id := "W", md_m := 100, sensors := PyVal.none,
    inc_deg := some 0, azi_deg := some 0, run_id := Option.none,
    context_id := Option.none, source := "Manual" }

/-- Fixture for the C8 witness. -/
noncomputable def solW : SolutionRow :=
  { id := 1, input_id := 0, context_id := Option.none, inc_deg := 0,
    azi_deg := 0, tvd_m := 3, northing_m := 1, easting_m := 2,
    dogleg_deg30m := 0, frame := "LOCAL", quality := 1,
    flags := PyVal.list [] }

/-- Witness for C8 at the duplicate depth 100 → 100 with changed
angles: the step is degenerate and keeps position (1, 2, 3). -/
theorem c8_witness :
    computeStep (some (inpW, solW)) 100 5 10 = (1, 2, 3, 0) ∧
    (min_curvature inpW.md_m solW.inc_deg solW.azi_deg 100 5 10).2 = 0 := by
  have h := c8_degenerate_zero_step.2 (inpW, solW) 100 5 10
    (by simp [inpW])
  simpa [inpW, solW] using h

/-- C4 fixture: station of well "W" at depth 100 (ingested first). -/
noncomputable def inp100 : InputRow :=
  { id := 0, well_id := "W", md_m := 100, sensors := PyVal.none,
    inc_deg := some 0, azi_deg := some 0, run_id := Option.none,
    context_id := Option.none, source := "Manual" }

/-- C4 fixture: solution of the depth-100 station. -/
noncomputable def sol100 : SolutionRow :=
  { id := 10, input_id := 0, context_id := Option.none, inc_deg := 0,
    azi_deg := 0, tvd_m := 100, northing_m := 0, easting_m := 0,
    dogleg_deg30m := 0, frame := "LOCAL", quality := 1,
    flags := PyVal.list [] }

/-- C4 fixture: station of well "W" at depth 200 (ingested second). -/
noncomputable def inp200 : InputRow :=
  { id := 1, well_id := "W", md_m := 200, sensors := PyVal.none,
    inc_deg := some 0, azi_deg := some 0, run_id := Option.none,
    context_id := Option.none, source := "Manual" }

/-- C4 fixture: solution of the depth-200 station. -/
noncomputable def sol200 : SolutionRow :=
  { id := 11, input_id := 1, context_id := Option.none, inc_deg := 0,
    azi_deg := 0, tvd_m := 200, northing_m := 0, easting_m := 0,
    dogleg_deg30m := 0, frame := "LOCAL", quality := 1,
    flags := PyVal.list [] }

/-- C4 fixture: a well with solved stations at depths 100 and 200,
into which a station at depth 150 is now being inserted. -/
noncomputable def db4 : DB :=
  { contexts := [], inputs := [inp100, inp200],
    solutions := [sol100, sol200], nextId := 2 }

/-- Evaluating the join on the C4 fixture. -/
theorem joined_db4 : joined db4 "W" = [(inp100, sol100), (inp200, sol200)] := by
  simp [joined, db4, inp100, inp200, sol100, sol200, List.find?]

/-- The pipeline's lookup on the C4 fixture picks the deepest station,
depth 200. -/
theorem prevSolution_db4 : prevSolution db4 "W" = some (inp200, sol200) := by
  rw [prevSolution, joined_db4]
  have h : inp100.md_m < inp200.md_m := by simp [inp100, inp200]; norm_num
  simp [maxByMd, h]

/-- The spec's lookup on the C4 fixture for new depth 150 picks the
station at depth 100 (greatest depth strictly below 150). -/
theorem prevSolutionSpec_db4 :
    prevSolutionSpec db4 "W" 150 = some (inp100, sol100) := by
  rw [prevSolutionSpec, joined_db4]
  have h1 : inp100.md_m < 150 := by simp [inp100]; norm_num
  have h2 : ¬ inp200.md_m < (150 : ℝ) := by simp [inp200]; norm_num
  simp [maxByMd, List.filter, h1, h2]

/-- C4 counterexample: on a well with solved stations at depths 100
and 200, inserting a station at depth 150, the pipeline resolves the
depth-200 solution as "previous", not the depth-100 solution with the
greatest depth strictly below 150 that the claim requires. -/
theorem c4_counterexample :
    (prevSolution db4 "W").map (fun p => p.1.md_m) = some 200 ∧
    (prevSolutionSpec db4 "W" 150).map (fun p => p.1.md_m) = some 100 ∧
    prevSolution db4 "W" ≠ prevSolutionSpec db4 "W" 150 := by
  refine ⟨?_, ?_, ?_⟩
  · rw [prevSolution_db4]; simp [inp200]
  · rw [prevSolutionSpec_db4]; simp [inp100]
  · rw [prevSolution_db4, prevSolutionSpec_db4]
    intro h
    have := congrArg (fun o => o.map (fun p => p.1.md_m)) h
    simp [inp100, inp200] at this

/-- The fold behind `maxByMd` returns an element of maximal `md_m`. -/
theorem maxByMd_aux (l : List (InputRow × SolutionRow)) :
    ∀ (acc : Option (InputRow × SolutionRow)) (p : InputRow × SolutionRow),
      l.foldl
        (fun acc q =>
          match acc with
          | Option.none => some q
          | some a => if a.1.md_m < q.1.md_m then some q else some a)
        acc = some p →
      (p ∈ l ∨ acc = some p) ∧
      (∀ q ∈ l, q.1.md_m ≤ p.1.md_m) ∧
      (∀ a, acc = some a → a.1.md_m ≤ p.1.md_m) := by
  induction l with
  | nil =>
    intro acc p h
    simp only [List.foldl_nil] at h
    refine ⟨Or.inr h, by simp, ?_⟩
    intro a ha
    rw [ha] at h
    cases h
    exact le_refl _
  | cons x xs ih =>
    intro acc p h
    simp only [List.foldl_cons] at h
    obtain ⟨h1, h2, h3⟩ := ih _ p h
    cases acc with
    | none =>
      have hx : x.1.md_m ≤ p.1.md_m := h3 x rfl
      refine ⟨?_, ?_, ?_⟩
      · rcases h1 with h1 | h1
        · exact Or.inl (List.mem_cons_of_mem x h1)
        · cases h1; exact Or.inl (List.mem_cons_self x xs)
      · intro q hq
        rcases List.mem_cons.mp hq with rfl | hq
        · exact hx
        · exact h2 q hq
      · intro a ha; cases ha
    | some a0 =>
      by_cases hlt : a0.1.md_m < x.1.md_m
      · simp only [if_pos hlt] at h1 h3
        have hx : x.1.md_m ≤ p.1.md_m := h3 x rfl
        refine ⟨?_, ?_, ?_⟩
        · rcases h1 with h1 | h1
          · exact Or.inl (List.mem_cons_of_mem x h1)
          · cases h1; exact Or.inl (List.mem_cons_self x xs)
        · intro q hq
          rcases List.mem_cons.mp hq with rfl | hq
          · exact hx
          · exact h2 q hq
        · intro a ha
          cases ha
          exact le_trans (le_of_lt hlt) hx
      · simp only [if_neg hlt] at h1 h3
        have ha0 : a0.1.md_m ≤ p.1.md_m := h3 a0 rfl
        refine ⟨?_, ?_, ?_⟩
        · rcases h1 with h1 | h1
          · exact Or.inl (List.mem_cons_of_mem x h1)
          · exact Or.inr h1
        · intro q hq
          rcases List.mem_cons.mp hq with rfl | hq
          · exact le_trans (le_of_not_lt hlt) ha0
          · exact h2 q hq
        · intro a ha
          cases ha
          exact ha0

/-- C4 amended: the lookup of main.py lines 104-106 returns a
joined (input, solution) pair of the well whose station depth is
maximal among ALL of the well's solved stations — it applies no
"strictly less than the new md" bound (and takes no new-md argument at
all). -/
theorem c4_amended_lookup_is_unbounded_max (db : DB) (well : String)
    (p : InputRow × SolutionRow) (h : prevSolution db well = some p) :
    p ∈ joined db well ∧ ∀ q ∈ joined db well, q.1.md_m ≤ p.1.md_m := by
  obtain ⟨h1, h2, _⟩ := maxByMd_aux (joined db well) Option.none p h
  refine ⟨?_, h2⟩
  rcases h1 with h1 | h1
  · exact h1
  · cases h1

/-- Witness for C4's amended claim on the two-station fixture: the
returned pair is in the join and its depth, 200, is maximal. -/
theorem c4_witness :
    (inp200, sol200) ∈ joined db4 "W" ∧
    ∀ q ∈ joined db4 "W", q.1.md_m ≤ (inp200, sol200).1.md_m :=
  c4_amended_lookup_is_unbounded_max db4 "W" (inp200, sol200) prevSolution_db4

/-- C6 fixture: a non-none context whose datums dict is empty (and, as
everywhere in verifier.py's reachable checks, no top-level
`mag_model_date`). -/
def ctx6 : PyVal := PyVal.dict [("datums", PyVal.dict [])]

/-- C6: the claim says a context with `datums={}` yields a flag list
containing DATUM_INCOMPLETE.  verifier.py never inspects datums: on
this context the flag list is exactly `[MAG_MODEL_MISSING]` and
contains no DATUM_INCOMPLETE.  (No branch of verifier.py ever emits
that flag.) -/
theorem c6_datum_check_absent :
    (verify parse0 0 (PyVal.dict []) ctx6).toOption.map Prod.fst =
      some ["MAG_MODEL_MISSING"] ∧
    (verify parse0 0 (PyVal.dict []) ctx6).toOption.map
      (fun t => t.1.contains "DATUM_INCOMPLETE") = some false :=
  ⟨rfl, rfl⟩

/-- Whether the value bound to `has_sensors`, if truthy, supports
`len`: the only way verifier.py's solution-building suffix can raise
on a dict input. -/
def sensorsLenOK (xs : List (String × PyVal)) : Bool :=
  match dictFind xs "sensors" with
  | some v => !pyTruthy v || sized v
  | Option.none => true

/-- A sized value has a length. -/
theorem sized_pyLen (v : PyVal) (h : sized v = true) :
    ∃ n, pyLen v = Except.ok n := by
  cases v <;> simp [sized] at h <;> exact ⟨_, rfl⟩

/-- Boolean success test on `Except`. -/
def exOk {α : Type} : Except PyErr α → Bool
  | .ok _ => true
  | .error _ => false

/-- A successful `Except` carries a value. -/
theorem exOk_exists {α : Type} (e : Except PyErr α) (h : exOk e = true) :
    ∃ a, e = Except.ok a := by
  cases e with
  | error er => simp [exOk] at h
  | ok a => exact ⟨a, rfl⟩

/-- Reduction of `Except` bind on a known success. -/
theorem pure_bind_ok {α β : Type} (a : α) (f : α → Except PyErr β) :
    (Bind.bind (Except.ok a : Except PyErr α) f) = f a := rfl

/-- Success of a bind from success of the head at a known value. -/
theorem exOk_bind_eq {α β : Type} {e : Except PyErr α}
    {f : α → Except PyErr β} (a : α) (ha : e = Except.ok a)
    (hf : exOk (f a) = true) : exOk (Bind.bind e f) = true := by
  rw [ha]; exact hf

/-- Success of a bind when the head succeeds (value unconstrained). -/
theorem exOk_bind_of_exists {α β : Type} {e : Except PyErr α}
    {f : α → Except PyErr β} (he : ∃ a, e = Except.ok a)
    (hf : ∀ a, exOk (f a) = true) : exOk (Bind.bind e f) = true := by
  obtain ⟨a, ha⟩ := he
  rw [ha]
  exact hf a

/-- Success of a bind when the head succeeds with a value satisfying
a predicate the continuation needs. -/
theorem exOk_bind_sat {α β : Type} {e : Except PyErr α}
    {f : α → Except PyErr β} {P : α → Prop}
    (he : ∃ a, e = Except.ok a ∧ P a)
    (hf : ∀ a, P a → exOk (f a) = true) : exOk (Bind.bind e f) = true := by
  obtain ⟨a, ha, hp⟩ := he
  rw [ha]
  exact hf a hp

/-- Reduction of `hasSensorsStep` on a dict, past the membership test. -/
theorem hasSensorsStep_eq (xs : List (String × PyVal)) :
    hasSensorsStep (PyVal.dict xs) =
      if (dictFind xs "sensors").isSome = true then
        pySubscript (PyVal.dict xs) (PyVal.str "sensors")
      else pure (PyVal.bool false) := rfl

/-- Reduction of `copyAngle` on a dict, past the membership test. -/
theorem copyAngle_eq (xs : List (String × PyVal)) (k : String) :
    copyAngle (PyVal.dict xs) k =
      if (dictFind xs k).isSome = true then
        pySubscript (PyVal.dict xs) (PyVal.str k)
      else pure (PyVal.float 0) := rfl

/-- The angle-copy step never raises on a dict input. -/
theorem copyAngle_dict (xs : List (String × PyVal)) (k : String) :
    ∃ v, copyAngle (PyVal.dict xs) k = Except.ok v := by
  cases hk : dictFind xs k with
  | none =>
    refine ⟨PyVal.float 0, ?_⟩
    rw [copyAngle_eq, hk]
    rfl
  | some v =>
    have hsub : pySubscript (PyVal.dict xs) (PyVal.str k) = Except.ok v := by
      simp [pySubscript, hk]
    refine ⟨v, ?_⟩
    rw [copyAngle_eq, hk]
    simpa using hsub

/-- The `has_sensors` step never raises on a dict input, and under
`sensorsLenOK` its value is falsy or sized (and then equal to the
sensors subscript). -/
theorem hasSensorsStep_dict (xs : List (String × PyVal))
    (hs : sensorsLenOK xs = true) :
    ∃ v0, hasSensorsStep (PyVal.dict xs) = Except.ok v0 ∧
      (pyTruthy v0 = false ∨
        (sized v0 = true ∧
          pySubscript (PyVal.dict xs) (PyVal.str "sensors") = Except.ok v0)) := by
  cases hk : dictFind xs "sensors" with
  | none =>
    refine ⟨PyVal.bool false, ?_, Or.inl rfl⟩
    rw [hasSensorsStep_eq, hk]
    rfl
  | some v =>
    have hsub : pySubscript (PyVal.dict xs) (PyVal.str "sensors") =
        Except.ok v := by
      simp [pySubscript, hk]
    refine ⟨v, ?_, ?_⟩
    · rw [hasSensorsStep_eq, hk]
      simpa using hsub
    · by_cases hv : pyTruthy v
      · refine Or.inr ⟨?_, hsub⟩
        unfold sensorsLenOK at hs
        rw [hk] at hs
        simpa [hv] using hs
      · simp only [Bool.not_eq_true] at hv
        exact Or.inl hv

/-- The sensor-slots step succeeds when `has_sensors` is falsy, or
sized and equal to the sensors subscript. -/
theorem sensorsSlots_exOk (input_data v0 : PyVal)
    (s2 : List (String × PyVal))
    (hd : pyTruthy v0 = false ∨
      (sized v0 = true ∧
        pySubscript input_data (PyVal.str "sensors") = Except.ok v0)) :
    exOk (sensorsSlots input_data v0 s2) = true := by
  unfold sensorsSlots
  by_cases hv : pyTruthy v0
  · rcases hd with hfalse | ⟨hsz, hsub⟩
    · rw [hfalse] at hv; cases hv
    · rw [if_pos hv]
      obtain ⟨n, hn⟩ := sized_pyLen v0 hsz
      exact exOk_bind_eq v0 hsub (exOk_bind_eq n hn rfl)
  · rw [if_neg hv]
    rfl

/-- The context-slots step succeeds on a falsy or dict context. -/
theorem contextSlots_exOk (context : PyVal) (s3 : List (String × PyVal))
    (hctx : pyTruthy context = false ∨ ∃ ys, context = PyVal.dict ys) :
    exOk (contextSlots context s3) = true := by
  unfold contextSlots
  by_cases ht : pyTruthy context
  · rcases hctx with hctxf | ⟨ys, rfl⟩
    · rw [hctxf] at ht; cases ht
    · rw [if_pos ht]
      cases hy : dictFind ys "well_id" with
      | none => exact exOk_bind_eq PyVal.none (by simp [pyGet, hy]) rfl
      | some w => exact exOk_bind_eq w (by simp [pyGet, hy]) rfl
  · rw [if_neg ht]
    rfl

/-- verifier.py's solution-building suffix cannot raise on a dict
`input_data` whose truthy sensors value (if any) is sized, and a
falsy-or-dict context. -/
theorem buildSolution_ok (now : Int) (xs : List (String × PyVal))
    (context : PyVal) (flags : List String)
    (hs : sensorsLenOK xs = true)
    (hctx : pyTruthy context = false ∨ ∃ ys, context = PyVal.dict ys) :
    ∃ sol, buildSolution now (PyVal.dict xs) context flags = Except.ok sol := by
  apply exOk_exists
  unfold buildSolution
  refine exOk_bind_sat (hasSensorsStep_dict xs hs) ?_
  intro v0 hd
  refine exOk_bind_of_exists (copyAngle_dict xs "inc_deg") ?_
  intro vi
  refine exOk_bind_of_exists (copyAngle_dict xs "azi_deg") ?_
  intro va
  refine exOk_bind_of_exists
    (exOk_exists _ (sensorsSlots_exOk (PyVal.dict xs) v0 _ hd)) ?_
  intro s3
  refine exOk_bind_of_exists
    (exOk_exists _ (contextSlots_exOk context s3 hctx)) ?_
  intro s4
  rfl

/-- C5: applying the verifier to an absent (`None`) context yields
exactly the flag list `[UNVERIFIED, CONTEXT_FALLBACK]` in that order —
the else-branch checks are skipped, so no other flag can appear — and
main.py's quality rule assigns that flag list quality 1.  The input
dict is only required not to trip the (context-independent)
`len(input_data["sensors"])` call. -/
theorem c5_none_context_flags (parse : String → Option Int) (now : Int)
    (xs : List (String × PyVal)) (hs : sensorsLenOK xs = true) :
    (∃ sol, verify parse now (PyVal.dict xs) PyVal.none =
      Except.ok (["UNVERIFIED", "CONTEXT_FALLBACK"], sol)) ∧
    qualityFromFlags ["UNVERIFIED", "CONTEXT_FALLBACK"] = 1 := by
  obtain ⟨sol, hsol⟩ := buildSolution_ok now xs PyVal.none
    ["UNVERIFIED", "CONTEXT_FALLBACK"] hs (Or.inl rfl)
  refine ⟨⟨sol, ?_⟩, rfl⟩
  unfold verify
  have hcf : ctxFlags parse now PyVal.none =
      Except.ok ["UNVERIFIED", "CONTEXT_FALLBACK"] := rfl
  rw [hcf, pure_bind_ok, hsol, pure_bind_ok]
  rfl

/-- Witness for C5 on the empty input dict. -/
theorem c5_witness :
    sensorsLenOK [] = true ∧
    ((∃ sol, verify parse0 0 (PyVal.dict []) PyVal.none =
      Except.ok (["UNVERIFIED", "CONTEXT_FALLBACK"], sol)) ∧
    qualityFromFlags ["UNVERIFIED", "CONTEXT_FALLBACK"] = 1) :=
  ⟨rfl, c5_none_context_flags parse0 0 [] rfl⟩

/-- C7 fixture: a context whose magnetic-model date parses to day 0. -/
def ctx7 : PyVal := PyVal.dict [("mag_model_date", PyVal.str "2020-01-01")]

/-- C7 fixture: a parser recognising exactly the fixture date. -/
def parse7 : String → Option Int :=
  fun s => if s = "2020-01-01" then some 0 else Option.none

/-- C7 counterexample: verifier.py reads the wall clock
(`datetime.utcnow()`), so its output is not a function of
(context, max_age_days) alone: two calls on the identical context
(model date day 0, max age the global 30), made at day 10 and at day
400, return different flag lists ([] versus [MAG_MODEL_STALE]) and
hence different outputs. -/
theorem c7_counterexample :
    (verify parse7 10 (PyVal.dict []) ctx7).toOption.map Prod.fst =
      some [] ∧
    (verify parse7 400 (PyVal.dict []) ctx7).toOption.map Prod.fst =
      some ["MAG_MODEL_STALE"] ∧
    verify parse7 10 (PyVal.dict []) ctx7 ≠
      verify parse7 400 (PyVal.dict []) ctx7 := by
  refine ⟨rfl, rfl, ?_⟩
  intro h
  have h2 := congrArg (fun r =>
    (r.toOption.map Prod.fst : Option (List String))) h
  exact absurd h2 (by decide)

/-- The flag-computing prefix of verifier.py depends on the current
time only through the staleness comparison. -/
theorem ctxFlags_now_congr (parse : String → Option Int)
    (now1 now2 : Int) (context : PyVal)
    (h : ∀ s d, parse s = some d →
      ((now1 - d > MAG_MODEL_MAX_AGE_DAYS) ↔
        (now2 - d > MAG_MODEL_MAX_AGE_DAYS))) :
    ctxFlags parse now1 context = ctxFlags parse now2 context := by
  unfold ctxFlags
  by_cases ht : pyTruthy context
  · rw [if_pos ht, if_pos ht]
    cases hc : pyContains (PyVal.str "mag_model_date") context with
    | error e => rfl
    | ok mem =>
      cases mem with
      | false => rfl
      | true =>
        simp only [if_true]
        cases hsub : pySubscript context (PyVal.str "mag_model_date") with
        | error e => cases e <;> rfl
        | ok v =>
          cases v with
          | str s =>
            rcases hp : parse s with _ | d
            · simp only [hp]
            · simp only [hp]
              by_cases hgt : now1 - d > MAG_MODEL_MAX_AGE_DAYS
              · rw [if_pos hgt, if_pos ((h s d hp).mp hgt)]
              · rw [if_neg hgt, if_neg (fun hg2 => hgt ((h s d hp).mpr hg2))]
          | none => rfl
          | bool b => rfl
          | int n => rfl
          | float q => rfl
          | list l => rfl
          | dict dxs => rfl
  · rw [if_neg ht, if_neg ht]

set_option maxHeartbeats 1000000 in
/-- C7 amended: the verifier is deterministic once the current time is
included among the inputs: for a fixed (input_data, context, parser),
two calls whose times agree on every staleness comparison produce the
same flag list (the full output also embeds the call timestamp, so it
is only identical when the time is identical).  Stated for inputs on
which the call returns: a dict input not tripping the sensors `len`,
and a falsy-or-dict context. -/
theorem c7_amended_flags_pure_given_time (parse : String → Option Int)
    (xs : List (String × PyVal)) (context : PyVal) (now1 now2 : Int)
    (hs : sensorsLenOK xs = true)
    (hctx : pyTruthy context = false ∨ ∃ ys, context = PyVal.dict ys)
    (h : ∀ s d, parse s = some d →
      ((now1 - d > MAG_MODEL_MAX_AGE_DAYS) ↔
        (now2 - d > MAG_MODEL_MAX_AGE_DAYS))) :
    (verify parse now1 (PyVal.dict xs) context).toOption.map Prod.fst =
      (verify parse now2 (PyVal.dict xs) context).toOption.map Prod.fst := by
  unfold verify
  rw [ctxFlags_now_congr parse now1 now2 context h]
  generalize ctxFlags parse now2 context = r
  cases r with
  | error e => rfl
  | ok fl =>
    obtain ⟨s1, hs1⟩ := buildSolution_ok now1 xs context fl hs hctx
    obtain ⟨s2, hs2⟩ := buildSolution_ok now2 xs context fl hs hctx
    rw [pure_bind_ok, pure_bind_ok, hs1, hs2, pure_bind_ok, pure_bind_ok]
    rfl

/-- Witness for C7's amended claim: days 40 and 50 agree on every
staleness comparison against the fixture date (day 0), and the flag
lists coincide. -/
theorem c7_witness :
    (verify parse7 40 (PyVal.dict []) ctx7).toOption.map Prod.fst =
      (verify parse7 50 (PyVal.dict []) ctx7).toOption.map Prod.fst :=
  c7_amended_flags_pure_given_time parse7 [] ctx7 40 50 rfl
    (Or.inr ⟨_, rfl⟩)
    (by
      intro s d hp
      unfold parse7 at hp
      split at hp
      · cases hp
        unfold MAG_MODEL_MAX_AGE_DAYS
        omega
      · cases hp)
